import Mathlib

/-
Verification development for the TAKT multi-agent orchestration engine and
its metrics computation engine.  The definitions below are a shallow
embedding of the Python sources:

  src/agents/base_agent.py            TaktAgent (chain_of_thought, cross_validate)
  src/agents/strategy_architect.py    StrategyArchitect (analyze, validate)
  src/agents/workflow_specialist.py   WorkflowSpecialist (validate)
  src/agents/scheduling_engineer.py   SchedulingEngineer (validate)
  src/agents/data_analyst.py          DataAnalyst (validate)
  src/agents/risk_controller.py       RiskController (validate)
  src/agents/implementation_specialist.py  ImplementationSpecialist (validate)
  src/orchestrator.py                 TaktOrchestrator
  src/services/data_service.py        TaktDataService metric computations
  src/config.py                       AGENT_CONFIGS

Python dictionaries, lists, strings, booleans and None are modelled by the
inductive type PyVal; a raised Python exception is modelled by the error
side of Except.  Numeric record fields are modelled by the rationals, with
an explicit four-point float type (finite, two infinities, NaN) where the
code can produce a non-finite float (division by zero, standard deviation
of a degenerate sample).  Reference-level mutation, which matters for the
copy-on-append contract of cross_validate, is modelled separately by a
small explicit heap of dictionary and list objects.
-/

/-- Model of a Python value as it appears in the agent pipeline: None,
booleans, strings, lists and dictionaries (a dictionary is a list of
key/value pairs in insertion order; Python dictionaries never hold a
duplicate key). -/
inductive PyVal where
  | none
  | bool (b : Bool)
  | str (s : String)
  | list (xs : List PyVal)
  | dict (entries : List (String × PyVal))

/-- Model of a raised Python exception: AttributeError for a missing
attribute (the undefined helper methods of StrategyArchitect) and KeyError
for a missing dictionary key. -/
inductive PyError where
  | attributeError (attr : String)
  | keyError (key : String)
deriving DecidableEq

/-- Python truthiness, as used by the built-in all(): None is falsy, a
boolean is itself, strings, lists and dictionaries are truthy when
non-empty. -/
def PyVal.truthy : PyVal → Bool
  | PyVal.none => false
  | PyVal.bool b => b
  | PyVal.str s => !s.isEmpty
  | PyVal.list xs => !xs.isEmpty
  | PyVal.dict es => !es.isEmpty

/-- Python built-in all() over a list of values: true when every element is
truthy. -/
def pyAll (xs : List PyVal) : Bool := xs.all PyVal.truthy

/-- Assignment d[k] = v on the entry list of a dictionary: when the key is
already present its value is replaced in place, otherwise the pair is
appended at the end, matching Python dictionary insertion-order semantics. -/
def dictSetEntries (es : List (String × PyVal)) (k : String) (v : PyVal) :
    List (String × PyVal) :=
  if es.any (fun e => e.1 == k) then
    es.map (fun e => if e.1 == k then (k, v) else e)
  else es ++ [(k, v)]

/-- Assignment d[k] = v on a dictionary value.  The sources only ever
assign into values that are dictionaries; on any other value the model
returns the value unchanged. -/
def dictSet (v : PyVal) (k : String) (x : PyVal) : PyVal :=
  match v with
  | PyVal.dict es => PyVal.dict (dictSetEntries es k x)
  | other => other

/-- Lookup d[k] on a dictionary value, returning the value of the first
entry carrying the key (entries are unique in the sources). -/
def dictGet (v : PyVal) (k : String) : Option PyVal :=
  match v with
  | PyVal.dict es => (es.find? (fun e => e.1 == k)).map (fun e => e.2)
  | _ => Option.none

/-- Agent display name of the strategy_architect entry of AGENT_CONFIGS
(src/config.py). -/
def strategyArchitectName : String := "Dr. TAKT Strategy Architect"

/-- Expertise label of the strategy_architect entry of AGENT_CONFIGS
(src/config.py). -/
def strategyArchitectExpertise : String :=
  "Portfolio & Enterprise-Level TAKT Implementation"

/-- TaktAgent.chain_of_thought (src/agents/base_agent.py lines 23-42):
builds the base analysis dictionary carrying identity, the context, empty
reasoning/conclusion/recommendation containers, an empty validation
mapping, and cross_validation_needed = True. -/
def chainOfThought (name expertise : String) (ctx : PyVal) : PyVal :=
  PyVal.dict
    [("agent_name", PyVal.str name),
     ("expertise", PyVal.str expertise),
     ("context", ctx),
     ("reasoning_steps", PyVal.list []),
     ("conclusions", PyVal.list []),
     ("recommendations", PyVal.list []),
     ("validation", PyVal.dict []),
     ("cross_validation_needed", PyVal.bool true)]

namespace StrategyArchitect

/-- Attribute lookup self._extract_business_goals in
src/agents/strategy_architect.py line 43.  No method of this name is
defined on StrategyArchitect or on its base class TaktAgent, so the call
raises AttributeError. -/
def extractBusinessGoals (_ctx : PyVal) : Except PyError PyVal :=
  Except.error (PyError.attributeError "_extract_business_goals")

/-- Attribute lookup self._define_takt_goals in strategy_architect.py line
44; the method is undefined, so the call raises AttributeError. -/
def defineTaktGoals (_ctx : PyVal) : Except PyError PyVal :=
  Except.error (PyError.attributeError "_define_takt_goals")

/-- Attribute lookup self._define_metrics in strategy_architect.py line
45; the method is undefined, so the call raises AttributeError. -/
def defineMetrics (_ctx : PyVal) : Except PyError PyVal :=
  Except.error (PyError.attributeError "_define_metrics")

/-- StrategyArchitect._define_objectives (strategy_architect.py lines
39-47): builds the Define Objectives step dictionary; the three nested
helper calls are evaluated first, in source order, and the first one
already raises AttributeError. -/
def defineObjectives (ctx : PyVal) : Except PyError PyVal := do
  let goals ← extractBusinessGoals ctx
  let takt ← defineTaktGoals ctx
  let metrics ← defineMetrics ctx
  pure (PyVal.dict
    [("step", PyVal.str "Define Objectives"),
     ("analysis", PyVal.dict
       [("business_goals", goals),
        ("takt_objectives", takt),
        ("success_metrics", metrics)])])

/-- Attribute lookup self._assess_workflows in strategy_architect.py line
53; the method is undefined, so the call raises AttributeError. -/
def assessWorkflows (_ctx : PyVal) : Except PyError PyVal :=
  Except.error (PyError.attributeError "_assess_workflows")

/-- Attribute lookup self._analyze_performance in strategy_architect.py
line 54; the method is undefined, so the call raises AttributeError. -/
def analyzePerformance (_ctx : PyVal) : Except PyError PyVal :=
  Except.error (PyError.attributeError "_analyze_performance")

/-- Attribute lookup self._identify_gaps in strategy_architect.py line 55;
the method is undefined, so the call raises AttributeError. -/
def identifyGaps (_ctx : PyVal) : Except PyError PyVal :=
  Except.error (PyError.attributeError "_identify_gaps")

/-- StrategyArchitect._analyze_current_state (strategy_architect.py lines
49-57). -/
def analyzeCurrentState (ctx : PyVal) : Except PyError PyVal := do
  let wf ← assessWorkflows ctx
  let perf ← analyzePerformance ctx
  let gaps ← identifyGaps ctx
  pure (PyVal.dict
    [("step", PyVal.str "Current State Analysis"),
     ("analysis", PyVal.dict
       [("workflow_assessment", wf),
        ("performance_metrics", perf),
        ("strategic_gaps", gaps)])])

/-- StrategyArchitect._assess_takt_feasibility (strategy_architect.py
lines 60-61): a pass-only stub, so the call returns None. -/
def assessTaktFeasibility (_ctx : PyVal) : Except PyError PyVal :=
  pure PyVal.none

/-- StrategyArchitect._develop_roadmap (lines 63-64): pass-only stub. -/
def developRoadmap (_ctx : PyVal) : Except PyError PyVal := pure PyVal.none

/-- StrategyArchitect._predict_risks (lines 66-67): pass-only stub. -/
def predictRisks (_ctx : PyVal) : Except PyError PyVal := pure PyVal.none

/-- StrategyArchitect._align_frameworks (lines 69-70): pass-only stub. -/
def alignFrameworks (_ctx : PyVal) : Except PyError PyVal := pure PyVal.none

/-- StrategyArchitect._generate_conclusions (lines 72-73): pass-only
stub returning None. -/
def generateConclusions (_steps : PyVal) : Except PyError PyVal :=
  pure PyVal.none

/-- StrategyArchitect._generate_recommendations (lines 75-76): pass-only
stub returning None. -/
def generateRecommendations (_steps : PyVal) : Except PyError PyVal :=
  pure PyVal.none

/-- StrategyArchitect.analyze (strategy_architect.py lines 5-25): builds
the base analysis via chain_of_thought, then evaluates the six reasoning
steps in order, then derives conclusions and recommendations.  The first
reasoning step, _define_objectives, raises AttributeError on the undefined
helper _extract_business_goals, so the whole call raises. -/
def analyze (ctx : PyVal) : Except PyError PyVal := do
  let base := chainOfThought strategyArchitectName strategyArchitectExpertise ctx
  let s1 ← defineObjectives ctx
  let s2 ← analyzeCurrentState ctx
  let s3 ← assessTaktFeasibility ctx
  let s4 ← developRoadmap ctx
  let s5 ← predictRisks ctx
  let s6 ← alignFrameworks ctx
  let steps := PyVal.list [s1, s2, s3, s4, s5, s6]
  let concl ← generateConclusions steps
  let recs ← generateRecommendations steps
  pure (dictSet (dictSet (dictSet base "reasoning_steps" steps)
    "conclusions" concl) "recommendations" recs)

/-- StrategyArchitect._validate_strategic_alignment (strategy_architect.py
lines 79-80): a pass-only stub, so the call returns None. -/
def validateStrategicAlignment (_analysis : PyVal) : PyVal := PyVal.none

/-- StrategyArchitect._validate_resource_feasibility (lines 82-83):
pass-only stub returning None. -/
def validateResourceFeasibility (_analysis : PyVal) : PyVal := PyVal.none

/-- StrategyArchitect._validate_implementation_timeline (lines 85-86):
pass-only stub returning None. -/
def validateImplementationTimeline (_analysis : PyVal) : PyVal := PyVal.none

/-- StrategyArchitect.validate (strategy_architect.py lines 27-37):
returns all() over the three validation criteria. -/
def validate (analysis : PyVal) : Bool :=
  pyAll
    [validateStrategicAlignment analysis,
     validateResourceFeasibility analysis,
     validateImplementationTimeline analysis]

end StrategyArchitect

namespace WorkflowSpecialist

/-- WorkflowSpecialist._validate_flow_efficiency
(src/agents/workflow_specialist.py lines 78-79): pass-only stub. -/
def validateFlowEfficiency (_analysis : PyVal) : PyVal := PyVal.none

/-- WorkflowSpecialist._validate_resource_utilization (lines 81-82):
pass-only stub. -/
def validateResourceUtilization (_analysis : PyVal) : PyVal := PyVal.none

/-- WorkflowSpecialist._validate_cycle_times (lines 84-85): pass-only
stub. -/
def validateCycleTimes (_analysis : PyVal) : PyVal := PyVal.none

/-- WorkflowSpecialist.validate (workflow_specialist.py lines 26-36):
all() over the three criteria. -/
def validate (analysis : PyVal) : Bool :=
  pyAll
    [validateFlowEfficiency analysis,
     validateResourceUtilization analysis,
     validateCycleTimes analysis]

end WorkflowSpecialist

namespace SchedulingEngineer

/-- SchedulingEngineer._validate_schedule_feasibility
(src/agents/scheduling_engineer.py lines 98-99): pass-only stub. -/
def validateScheduleFeasibility (_analysis : PyVal) : PyVal := PyVal.none

/-- SchedulingEngineer._validate_resource_availability (lines 101-102):
pass-only stub. -/
def validateResourceAvailability (_analysis : PyVal) : PyVal := PyVal.none

/-- SchedulingEngineer._validate_takt_time_calculations (lines 104-105):
pass-only stub. -/
def validateTaktTimeCalculations (_analysis : PyVal) : PyVal := PyVal.none

/-- SchedulingEngineer.validate (scheduling_engineer.py lines 27-37):
all() over the three criteria. -/
def validate (analysis : PyVal) : Bool :=
  pyAll
    [validateScheduleFeasibility analysis,
     validateResourceAvailability analysis,
     validateTaktTimeCalculations analysis]

end SchedulingEngineer

namespace DataAnalyst

/-- DataAnalyst._validate_data_quality (src/agents/data_analyst.py lines
123-124): pass-only stub. -/
def validateDataQuality (_analysis : PyVal) : PyVal := PyVal.none

/-- DataAnalyst._validate_model_performance (lines 126-127): pass-only
stub. -/
def validateModelPerformance (_analysis : PyVal) : PyVal := PyVal.none

/-- DataAnalyst._validate_predictions (lines 129-130): pass-only stub. -/
def validatePredictions (_analysis : PyVal) : PyVal := PyVal.none

/-- DataAnalyst.validate (data_analyst.py lines 31-41): all() over the
three criteria. -/
def validate (analysis : PyVal) : Bool :=
  pyAll
    [validateDataQuality analysis,
     validateModelPerformance analysis,
     validatePredictions analysis]

end DataAnalyst

namespace RiskController

/-- RiskController._validate_risk_assessment
(src/agents/risk_controller.py lines 106-107): pass-only stub. -/
def validateRiskAssessment (_analysis : PyVal) : PyVal := PyVal.none

/-- RiskController._validate_mitigation_strategies (lines 109-110):
pass-only stub. -/
def validateMitigationStrategies (_analysis : PyVal) : PyVal := PyVal.none

/-- RiskController._validate_contingency_plans (lines 112-113): pass-only
stub. -/
def validateContingencyPlans (_analysis : PyVal) : PyVal := PyVal.none

/-- RiskController.validate (risk_controller.py lines 26-36): all() over
the three criteria. -/
def validate (analysis : PyVal) : Bool :=
  pyAll
    [validateRiskAssessment analysis,
     validateMitigationStrategies analysis,
     validateContingencyPlans analysis]

end RiskController

namespace ImplementationSpecialist

/-- ImplementationSpecialist._validate_training_effectiveness
(src/agents/implementation_specialist.py lines 116-117): pass-only stub. -/
def validateTrainingEffectiveness (_analysis : PyVal) : PyVal := PyVal.none

/-- ImplementationSpecialist._validate_change_management (lines 119-120):
pass-only stub. -/
def validateChangeManagement (_analysis : PyVal) : PyVal := PyVal.none

/-- ImplementationSpecialist._validate_adoption_metrics (lines 122-123):
pass-only stub. -/
def validateAdoptionMetrics (_analysis : PyVal) : PyVal := PyVal.none

/-- ImplementationSpecialist.validate (implementation_specialist.py lines
26-36): all() over the three criteria. -/
def validate (analysis : PyVal) : Bool :=
  pyAll
    [validateTrainingEffectiveness analysis,
     validateChangeManagement analysis,
     validateAdoptionMetrics analysis]

end ImplementationSpecialist

/-- The validate methods of the six concrete agent variants, in roster
order of src/config.py. -/
def sixVariantValidators : List (PyVal → Bool) :=
  [StrategyArchitect.validate,
   WorkflowSpecialist.validate,
   SchedulingEngineer.validate,
   DataAnalyst.validate,
   RiskController.validate,
   ImplementationSpecialist.validate]

/-- Value-level view of a TaktAgent instance: its display name, its
analyze method and its validate method.  Only these three members are used
by the orchestrator and by cross_validate. -/
structure AgentSpec where
  name : String
  analyze : PyVal → Except PyError PyVal
  validate : PyVal → Bool

/-- Result list built by the loop of TaktAgent.cross_validate
(base_agent.py lines 49-55): one entry per peer whose name differs from
the analyzing agent, in peer iteration order, each carrying the validator
name and the boolean outcome of validate on the (original) analysis. -/
def cvResults (selfName : String) (others : List AgentSpec)
    (analysis : PyVal) : List PyVal :=
  (others.filter (fun ag => ag.name != selfName)).map
    (fun ag => PyVal.dict
      [("validator", PyVal.str ag.name),
       ("validated", PyVal.bool (ag.validate analysis))])

/-- TaktAgent.cross_validate (base_agent.py lines 44-57), value level:
copies the analysis, assigns the collected result list under the key
cross_validation_results, and returns the new dictionary.  The heap-level
embedding crossValidateHeap below captures the mutation behaviour of the
same code. -/
def crossValidate (selfName : String) (others : List AgentSpec)
    (analysis : PyVal) : PyVal :=
  dictSet analysis "cross_validation_results"
    (PyVal.list (cvResults selfName others analysis))

/-- The StrategyArchitect agent as constructed by the orchestrator from
AGENT_CONFIGS (config.py lines 17-22). -/
def strategyArchitectAgent : AgentSpec :=
  { name := strategyArchitectName,
    analyze := StrategyArchitect.analyze,
    validate := StrategyArchitect.validate }

/-- TaktOrchestrator._initialize_agents (src/orchestrator.py lines 12-18):
the dictionary of registered agents.  Despite the six entries of
AGENT_CONFIGS, only the strategy_architect agent is constructed; the
source comment defers the other five. -/
def agentsRoster : List (String × AgentSpec) :=
  [("strategy_architect", strategyArchitectAgent)]

/-- TaktOrchestrator._cross_validate_analyses (orchestrator.py lines
43-53): for each collected analysis, look up the owning agent in the
roster (a missing key would raise KeyError), gather every other roster
agent, and call cross_validate. -/
def crossValidateAnalyses (analyses : List (String × PyVal)) :
    Except PyError (List (String × PyVal)) :=
  analyses.mapM (fun kv =>
    match agentsRoster.find? (fun p => p.1 == kv.1) with
    | Option.some p =>
        let others := (agentsRoster.filter (fun q => q.1 != kv.1)).map
          (fun q => q.2)
        Except.ok (kv.1, crossValidate p.2.name others kv.2)
    | Option.none => Except.error (PyError.keyError kv.1))

/-- TaktOrchestrator._extract_strategic_recommendations (orchestrator.py
lines 64-66): a pass-only stub, so the call returns None. -/
def extractStrategicRecommendations (_analyses : List (String × PyVal)) :
    PyVal := PyVal.none

/-- TaktOrchestrator._create_implementation_plan (lines 68-70): pass-only
stub returning None. -/
def createImplementationPlan (_analyses : List (String × PyVal)) : PyVal :=
  PyVal.none

/-- TaktOrchestrator._compile_risk_mitigation (lines 72-74): pass-only
stub returning None. -/
def compileRiskMitigation (_analyses : List (String × PyVal)) : PyVal :=
  PyVal.none

/-- TaktOrchestrator._define_success_metrics (lines 76-78): pass-only stub
returning None. -/
def defineSuccessMetrics (_analyses : List (String × PyVal)) : PyVal :=
  PyVal.none

/-- TaktOrchestrator._synthesize_recommendations (orchestrator.py lines
55-62): the synthesis bundle with its four fixed keys, each produced by
one of the four stub helpers above. -/
def synthesizeRecommendations (validatedAnalyses : List (String × PyVal)) :
    PyVal :=
  PyVal.dict
    [("strategic_recommendations",
        extractStrategicRecommendations validatedAnalyses),
     ("implementation_plan", createImplementationPlan validatedAnalyses),
     ("risk_mitigation", compileRiskMitigation validatedAnalyses),
     ("success_metrics", defineSuccessMetrics validatedAnalyses)]

/-- TaktOrchestrator.analyze_project (orchestrator.py lines 20-41): runs
every roster agent on the context (an exception from any analyze call
propagates, there is no handler), cross-validates, synthesizes, and
returns the three-field result dictionary. -/
def analyzeProject (projectContext : PyVal) : Except PyError PyVal := do
  let analyses ← agentsRoster.mapM (fun p => do
    let a ← p.2.analyze projectContext
    pure (p.1, a))
  let validated ← crossValidateAnalyses analyses
  let finalRecs := synthesizeRecommendations validated
  pure (PyVal.dict
    [("individual_analyses", PyVal.dict validated),
     ("synthesized_recommendations", finalRecs),
     ("project_context", projectContext)])

/-- Row of the takt_metrics table as queried by
TaktDataService.get_takt_metrics (data_service.py lines 158-179).  The
timestamp and project id do not enter any of the metric computations and
are omitted; the numeric columns are modelled by rationals (the SQLite
REAL values, idealized to exact arithmetic). -/
structure DurationRecord where
  work_package : String
  planned_duration : ℚ
  actual_duration : ℚ
  variance : ℚ
  bottleneck_factor : ℚ
deriving DecidableEq

/-- Model of an IEEE float value as produced by the pandas computations:
a finite rational, positive or negative infinity, or NaN. -/
inductive Fl where
  | fin (q : ℚ)
  | pinf
  | ninf
  | nan
deriving DecidableEq

/-- Float division a / p, as performed elementwise by the pandas
expression actual_duration / planned_duration: an exact quotient when the
divisor is non-zero, otherwise a signed infinity (or NaN for 0 / 0). -/
def fdiv (a p : ℚ) : Fl :=
  if p ≠ 0 then Fl.fin (a / p)
  else if 0 < a then Fl.pinf
  else if a < 0 then Fl.ninf
  else Fl.nan

/-- Float comparison x <= q against a finite bound, with IEEE semantics:
any comparison with NaN is false, positive infinity exceeds every finite
bound, negative infinity is below every finite bound. -/
def fleQ (x : Fl) (q : ℚ) : Bool :=
  match x with
  | Fl.fin a => decide (a ≤ q)
  | Fl.pinf => false
  | Fl.ninf => true
  | Fl.nan => false

/-- Elementwise ratio actual_duration / planned_duration (variance_ratio
in data_service.py line 203). -/
def ratiosOf (data : List DurationRecord) : List Fl :=
  data.map (fun r => fdiv r.actual_duration r.planned_duration)

/-- Elementwise boolean series variance_ratio <= 1.1 (data_service.py line
205). -/
def flagsOf (data : List DurationRecord) : List Bool :=
  (ratiosOf data).map (fun x => fleQ x (11 / 10))

/-- Mean of a boolean pandas series, as computed by Series.mean(): the sum
of the values read as 0 / 1 divided by the length. -/
def boolSeriesMean (bs : List Bool) : ℚ :=
  (bs.map (fun b => if b then (1 : ℚ) else 0)).sum / bs.length

/-- Finite values of a float series, in order. -/
def finValues (xs : List Fl) : List ℚ :=
  xs.filterMap (fun x => match x with
    | Fl.fin q => Option.some q
    | _ => Option.none)

/-- Sample variance (ddof = 1) of a rational series: mean of the series,
then the sum of squared deviations divided by n - 1. -/
def sampleVarQ (qs : List ℚ) : ℚ :=
  (qs.map (fun q => (q - qs.sum / qs.length) * (q - qs.sum / qs.length))).sum /
    ((qs.length : ℚ) - 1)

/-- Sample standard deviation of a float series, squared, as computed by
pandas Series.std() (ddof = 1, skipna = True): NaN values are dropped
first (result Option.none, meaning the std is NaN, when fewer than two
values remain or when an infinity remains); otherwise the std is the
square root of the returned sample variance.  The square root of a
rational is kept symbolic because it is irrational in general; StabVal
below carries it. -/
def pdStdSq (xs : List Fl) : Option ℚ :=
  if (xs.filter (fun x => x ≠ Fl.nan)).length ≤ 1 then Option.none
  else if (xs.filter (fun x => x ≠ Fl.nan)).any
      (fun x => x == Fl.pinf || x == Fl.ninf) then Option.none
  else Option.some (sampleVarQ (finValues (xs.filter (fun x => x ≠ Fl.nan))))

/-- Value of the stability_index field computed at data_service.py line
206: either a directly computed float (the 0 sentinel of the empty-input
guard, or NaN when the std is NaN), or the exact value 100 - 100 * sqrt v
for the sample variance v of the ratio series. -/
inductive StabVal where
  | num (x : Fl)
  | hundredSubHundredSqrt (v : ℚ)
deriving DecidableEq

/-- Denotation of a stability value as an extended real outcome:
Option.none for NaN, otherwise the real number it stands for. -/
noncomputable def StabVal.denote : StabVal → Option ℝ
  | StabVal.num (Fl.fin q) => Option.some ((q : ℝ))
  | StabVal.num Fl.pinf => Option.none
  | StabVal.num Fl.ninf => Option.none
  | StabVal.num Fl.nan => Option.none
  | StabVal.hundredSubHundredSqrt v =>
      Option.some ((100 : ℝ) - 100 * Real.sqrt ((v : ℝ)))

/-- TaktDataService._calculate_takt_adherence (data_service.py lines
198-207): on empty input both fields are 0; otherwise average_adherence is
the mean of the boolean series (variance_ratio <= 1.1) times 100, and
stability_index is 100 - std(variance_ratio) * 100, NaN when the std is
NaN. -/
def taktAdherence (data : List DurationRecord) : Fl × StabVal :=
  match data with
  | [] => (Fl.fin 0, StabVal.num (Fl.fin 0))
  | _ :: _ =>
    (Fl.fin (boolSeriesMean (flagsOf data) * 100),
     match pdStdSq (ratiosOf data) with
     | Option.none => StabVal.num Fl.nan
     | Option.some v => StabVal.hundredSubHundredSqrt v)

/-- TaktDataService._calculate_flow_efficiency (data_service.py lines
209-221): on empty input both fields are 0; otherwise flow_efficiency is
value_added_time / total_time * 100 guarded by total_time > 0, and
waste_percentage is 100 - flow_efficiency.  The two sums range over
actual_duration, the value-added one restricted to records with
variance <= 0. -/
def flowEfficiencyRatio (data : List DurationRecord) : ℚ :=
  if 0 < (data.map (fun r => r.actual_duration)).sum then
    ((data.filter (fun r => decide (r.variance ≤ 0))).map
      (fun r => r.actual_duration)).sum /
      (data.map (fun r => r.actual_duration)).sum * 100
  else 0

/-- Pair returned by _calculate_flow_efficiency: the guard for empty
input, then (flow_efficiency, waste_percentage). -/
def flowEfficiency (data : List DurationRecord) : ℚ × ℚ :=
  match data with
  | [] => (0, 0)
  | _ :: _ => (flowEfficiencyRatio data, 100 - flowEfficiencyRatio data)

/-- TaktDataService._analyze_bottlenecks (data_service.py lines 223-236):
records with bottleneck_factor > 1.2, in original order, reported as
(work_package, bottleneck_factor, impact = variance). -/
def analyzeBottlenecks (data : List DurationRecord) :
    List (String × ℚ × ℚ) :=
  (data.filter (fun r => decide ((6 : ℚ) / 5 < r.bottleneck_factor))).map
    (fun r => (r.work_package, r.bottleneck_factor, r.variance))

/-- Five-period trailing moving average of a series, as computed by pandas
rolling(window=5).mean() with the default min_periods: the entry at index
i is NaN (Option.none) for i < 4, otherwise the mean of the five values at
indices i-4 .. i. -/
def rollingMean5 (xs : List ℚ) : List (Option ℚ) :=
  (List.range xs.length).map (fun i =>
    if 4 ≤ i then Option.some (((xs.drop (i - 4)).take 5).sum / 5)
    else Option.none)

/-- Float strict comparison a < b on possibly-NaN values (Option.none is
NaN): false whenever either side is NaN. -/
def nanLt (a b : Option ℚ) : Bool :=
  match a, b with
  | Option.some x, Option.some y => decide (x < y)
  | _, _ => false

/-- TaktDataService._analyze_variance_trends (data_service.py lines
238-249): on empty input the pair (No data, Option.none); otherwise the
trend is Improving when the last entry of the rolling mean of the variance
column is strictly below the first entry (an IEEE comparison, false on
NaN), else Degrading, and the pattern is the rolling-mean series itself. -/
def trendOf (series : List (Option ℚ)) : String :=
  if nanLt (series.getLast?.getD Option.none)
      (series.head?.getD Option.none) then "Improving" else "Degrading"

/-- Pair returned by _analyze_variance_trends: the empty-input guard, then
(trend, pattern) over the rolling-mean series. -/
def analyzeVarianceTrends (data : List DurationRecord) :
    String × Option (List (Option ℚ)) :=
  match data with
  | [] => ("No data", Option.none)
  | _ :: _ =>
    (trendOf (rollingMean5 (data.map (fun r => r.variance))),
     Option.some (rollingMean5 (data.map (fun r => r.variance))))

/-- Duration records of the adherence scenario of the spec: planned 20
with actual 22, and planned 30 with actual 40 (variance and bottleneck
factor filled in per their defining formulas). -/
def scenarioRecords : List DurationRecord :=
  [{ work_package := "WP1", planned_duration := 20, actual_duration := 22,
     variance := 2, bottleneck_factor := 11 / 10 },
   { work_package := "WP2", planned_duration := 30, actual_duration := 40,
     variance := 10, bottleneck_factor := 4 / 3 }]

/-- Duration record with planned_duration 0 used to exercise the
division-by-zero path of the adherence computation. -/
def zeroPlannedRecord : DurationRecord :=
  { work_package := "Foundation", planned_duration := 0,
    actual_duration := 10, variance := 10, bottleneck_factor := 0 }

/-- Two-record input pairing the zero-planned record with a well-behaved
record. -/
def zeroPlannedScenario : List DurationRecord :=
  [zeroPlannedRecord,
   { work_package := "Framing", planned_duration := 20,
     actual_duration := 22, variance := 2, bottleneck_factor := 11 / 10 }]

/-- Single duration record used to exercise the variance-trend path on an
input shorter than the rolling window. -/
def singleRecord : DurationRecord :=
  { work_package := "W", planned_duration := 1, actual_duration := 2,
    variance := 1, bottleneck_factor := 2 }

/-- Heap-cell value for the reference-level model of cross_validate:
immediate values, or a reference to a heap object. -/
inductive HVal where
  | none
  | bool (b : Bool)
  | str (s : String)
  | ref (addr : Nat)
deriving DecidableEq

/-- Heap object: a Python dictionary (entry list in insertion order) or a
Python list. -/
inductive HObj where
  | dict (entries : List (String × HVal))
  | list (items : List HVal)
deriving DecidableEq

/-- Heap of allocated objects; the address of an object is its index. -/
structure Heap where
  objs : List HObj
deriving DecidableEq

/-- Read the object at an address. -/
def Heap.lookup (h : Heap) (a : Nat) : Option HObj := h.objs[a]?

/-- Allocate a fresh object at the next free address. -/
def Heap.alloc (h : Heap) (o : HObj) : Heap × Nat :=
  (⟨h.objs ++ [o]⟩, h.objs.length)

/-- Overwrite the object at an address. -/
def Heap.write (h : Heap) (a : Nat) (o : HObj) : Heap :=
  ⟨h.objs.set a o⟩

/-- Entry list of the dictionary at an address (the sources only apply
this to dictionary objects). -/
def Heap.dictEntries (h : Heap) (a : Nat) : List (String × HVal) :=
  match h.lookup a with
  | Option.some (HObj.dict es) => es
  | _ => []

/-- Entry list assignment on the entry list of a heap dictionary,
replacing in place or appending, as for dictSetEntries. -/
def hDictSetEntries (es : List (String × HVal)) (k : String) (v : HVal) :
    List (String × HVal) :=
  if es.any (fun e => e.1 == k) then
    es.map (fun e => if e.1 == k then (k, v) else e)
  else es ++ [(k, v)]

/-- Statement d[k] = v on the heap dictionary at address a. -/
def Heap.setKey (h : Heap) (a : Nat) (k : String) (v : HVal) : Heap :=
  h.write a (HObj.dict (hDictSetEntries (h.dictEntries a) k v))

/-- Statement l.append(v) on the heap list at address a. -/
def Heap.appendItem (h : Heap) (a : Nat) (v : HVal) : Heap :=
  match h.lookup a with
  | Option.some (HObj.list xs) => h.write a (HObj.list (xs ++ [v]))
  | _ => h

/-- Peer agent as seen by the heap-level cross_validate: a name and a
validate method.  The validate methods of all six concrete variants read
their argument and return a boolean without writing anything (each is an
all() over pass-only stubs), so validate is modelled as a read-only
function of the heap and the analysis reference. -/
structure HAgent where
  name : String
  validate : Heap → Nat → Bool

/-- Body of one iteration of the cross_validate loop (base_agent.py lines
50-55): call validate on the original analysis reference, allocate the
result dictionary, and append a reference to it to the
cross_validation_results list at address lRef. -/
def cvStep (aRef lRef : Nat) (ag : HAgent) (h : Heap) : Heap :=
  (h.alloc (HObj.dict
    [("validator", HVal.str ag.name),
     ("validated", HVal.bool (ag.validate h aRef))])).1.appendItem lRef
    (HVal.ref (h.alloc (HObj.dict
      [("validator", HVal.str ag.name),
       ("validated", HVal.bool (ag.validate h aRef))])).2)

/-- Loop of TaktAgent.cross_validate (base_agent.py lines 49-55) at the
heap level: one cvStep per peer whose name differs from the analyzing
agent. -/
def cvLoop (selfName : String) (aRef lRef : Nat) :
    List HAgent → Heap → Heap
  | [], h => h
  | ag :: rest, h =>
    if ag.name != selfName then
      cvLoop selfName aRef lRef rest (cvStep aRef lRef ag h)
    else cvLoop selfName aRef lRef rest h

/-- TaktAgent.cross_validate (base_agent.py lines 44-57) at the heap
level: validated_analysis = analysis.copy() allocates a fresh shallow copy
of the analysis dictionary; a fresh empty list is allocated and assigned
under cross_validation_results on the copy; the loop appends one result
per differing peer; the reference to the copy is returned. -/
def crossValidateHeap (selfName : String) (others : List HAgent)
    (aRef : Nat) (h : Heap) : Heap × Nat :=
  let copyRef := (h.alloc (HObj.dict (h.dictEntries aRef))).2
  let h1 := (h.alloc (HObj.dict (h.dictEntries aRef))).1
  let lRef := (h1.alloc (HObj.list [])).2
  let h2 := (h1.alloc (HObj.list [])).1
  let h3 := h2.setKey copyRef "cross_validation_results" (HVal.ref lRef)
  (cvLoop selfName aRef lRef others h3, copyRef)

/-- Demonstration heap holding a single one-entry analysis dictionary at
address 0. -/
def demoHeap : Heap := ⟨[HObj.dict [("agent_name", HVal.str "A")]]⟩

/-- Demonstration peer list: one peer with a constantly-false validate, as
all six concrete validate methods are. -/
def demoPeers : List HAgent := [{ name := "B", validate := fun _ _ => false }]

theorem find?_cons_true {α : Type} (p : α → Bool) (e : α) (l : List α)
    (h : p e = true) : List.find? p (e :: l) = Option.some e := by
  rw [List.find?, h]

theorem find?_cons_false {α : Type} (p : α → Bool) (e : α) (l : List α)
    (h : p e = false) : List.find? p (e :: l) = List.find? p l := by
  rw [List.find?, h]

theorem find?_map_replace (k : String) (v : PyVal)
    (es : List (String × PyVal))
    (h : es.any (fun e => e.1 == k) = true) :
    (es.map (fun e => if e.1 == k then (k, v) else e)).find?
      (fun e => e.1 == k) = Option.some (k, v) := by
  induction es with
  | nil => simp at h
  | cons e t ih =>
    by_cases hk : (e.1 == k) = true
    · rw [List.map_cons, if_pos hk]
      exact find?_cons_true (fun e => e.1 == k) (k, v) _ (by simp)
    · have hk' : (e.1 == k) = false := by
        revert hk
        cases (e.1 == k) <;> simp
      rw [List.map_cons, if_neg hk,
        find?_cons_false (fun e => e.1 == k) e _ hk']
      apply ih
      simpa [hk'] using h

theorem find?_append_new (k : String) (v : PyVal)
    (es : List (String × PyVal))
    (h : es.any (fun e => e.1 == k) = false) :
    (es ++ [(k, v)]).find? (fun e => e.1 == k) = Option.some (k, v) := by
  induction es with
  | nil =>
    rw [List.nil_append]
    exact find?_cons_true (fun e => e.1 == k) (k, v) _ (by simp)
  | cons e t ih =>
    simp only [List.any_cons, Bool.or_eq_false_iff] at h
    rw [List.cons_append, find?_cons_false (fun e => e.1 == k) e _ h.1]
    exact ih h.2

theorem dictGet_dictSet (es : List (String × PyVal)) (k : String)
    (v : PyVal) :
    dictGet (dictSet (PyVal.dict es) k v) k = Option.some v := by
  show ((dictSetEntries es k v).find? (fun e => e.1 == k)).map
    (fun e => e.2) = Option.some v
  unfold dictSetEntries
  by_cases h : es.any (fun e => e.1 == k) = true
  · rw [if_pos h, find?_map_replace k v es h]
    rfl
  · have hf : es.any (fun e => e.1 == k) = false := by
      revert h
      cases es.any (fun e => e.1 == k) <;> simp
    rw [if_neg h, find?_append_new k v es hf]
    rfl

/-- C1 (amended).  The failure policy described by the spec is absent from
the code: StrategyArchitect.analyze raises AttributeError on every
context, because its first reasoning step _define_objectives calls the
undefined helper _extract_business_goals; no reasoning step yields an
error-tagged step result.  The orchestrator has no handler around the
per-agent analyze calls, so Orchestrator.analyze_project propagates the
same exception instead of continuing with whatever succeeded. -/
theorem analyze_attribute_error_aborts_pipeline (ctx : PyVal) :
    StrategyArchitect.analyze ctx =
      Except.error (PyError.attributeError "_extract_business_goals") ∧
    analyzeProject ctx =
      Except.error (PyError.attributeError "_extract_business_goals") := by
  constructor
  · rfl
  · rfl

/-- C1 counterexample.  At the concrete empty context, analyze raises
AttributeError rather than returning a partial analysis, and the exception
aborts analyze_project, contradicting the claim that no error inside an
agent analysis can abort the overall call. -/
theorem analyze_raises_on_concrete_context :
    StrategyArchitect.analyze (PyVal.dict []) =
      Except.error (PyError.attributeError "_extract_business_goals") ∧
    analyzeProject (PyVal.dict []) =
      Except.error (PyError.attributeError "_extract_business_goals") := by
  constructor
  · rfl
  · rfl

/-- C2 (amended).  The orchestrator roster holds exactly one agent, not
six, so analyze_project can never return six individual analyses; the
per-analysis invariant survives: cross_validate appends under
cross_validation_results exactly one entry per peer whose name differs
from the analyzing agent, in peer-iteration order, hence
len(agents) - 1 entries when the peers are the other roster agents with
distinct names. -/
theorem cross_validation_count_and_roster_size :
    agentsRoster.length = 1 ∧
    ∀ (selfName : String) (others : List AgentSpec)
      (es : List (String × PyVal)),
      dictGet (crossValidate selfName others (PyVal.dict es))
          "cross_validation_results" =
        Option.some (PyVal.list (cvResults selfName others (PyVal.dict es)))
      ∧ (cvResults selfName others (PyVal.dict es)).length =
          (others.filter (fun ag => ag.name != selfName)).length
      ∧ (cvResults selfName others (PyVal.dict es)).map
            (fun r => dictGet r "validator") =
          (others.filter (fun ag => ag.name != selfName)).map
            (fun ag => Option.some (PyVal.str ag.name)) := by
  refine ⟨rfl, fun selfName others es => ⟨?_, ?_, ?_⟩⟩
  · exact dictGet_dictSet es "cross_validation_results" _
  · simp [cvResults]
  · simp [cvResults, dictGet, List.map_map, Function.comp]

/-- C2 counterexample.  The initialized roster has length one (only
strategy_architect is constructed), and at a concrete context
analyze_project raises instead of returning six individual analyses. -/
theorem roster_single_agent_cex :
    agentsRoster.length = 1 ∧
    analyzeProject (PyVal.dict [("project_size", PyVal.str "Large")]) =
      Except.error (PyError.attributeError "_extract_business_goals") := by
  constructor
  · rfl
  · rfl

/-- C5 (amended).  The synthesis step builds the bundle with the four
fixed keys strategic_recommendations, implementation_plan,
risk_mitigation and success_metrics, but every value is None: the four
extraction/merge/union helpers are pass-only stubs, so no deduplication,
sequencing or union of the validated analyses takes place. -/
theorem synthesis_bundle_all_none
    (validatedAnalyses : List (String × PyVal)) :
    synthesizeRecommendations validatedAnalyses =
      PyVal.dict
        [("strategic_recommendations", PyVal.none),
         ("implementation_plan", PyVal.none),
         ("risk_mitigation", PyVal.none),
         ("success_metrics", PyVal.none)] := rfl

/-- C5 counterexample.  On a concrete non-empty validated-analyses input,
every one of the four synthesized fields is None rather than any
combination of the analyses; in particular strategic_recommendations is
not a sequence at all. -/
theorem synthesis_stub_cex :
    dictGet (synthesizeRecommendations
        [("strategy_architect",
          PyVal.dict [("agent_name", PyVal.str "Dr. TAKT Strategy Architect"),
                      ("recommendations",
                       PyVal.list [PyVal.str "Adopt TAKT"])])])
        "strategic_recommendations" = Option.some PyVal.none ∧
    dictGet (synthesizeRecommendations
        [("strategy_architect", PyVal.dict [])]) "implementation_plan" =
      Option.some PyVal.none ∧
    dictGet (synthesizeRecommendations
        [("strategy_architect", PyVal.dict [])]) "risk_mitigation" =
      Option.some PyVal.none ∧
    dictGet (synthesizeRecommendations
        [("strategy_architect", PyVal.dict [])]) "success_metrics" =
      Option.some PyVal.none := by
  refine ⟨rfl, rfl, rfl, rfl⟩

/-- C10 (confirmed).  Every one of the six variant validate methods
returns False on every input analysis, because each is the conjunction
(all()) of pass-only criteria returning None; consequently every entry
built by the cross_validate loop from such peers carries
validated = False, so no analysis is ever validated by any peer. -/
theorem validators_always_false :
    (∀ v ∈ sixVariantValidators, ∀ a : PyVal, v a = false) ∧
    (∀ (selfName : String) (others : List AgentSpec) (analysis : PyVal),
      (∀ ag ∈ others, ∀ x : PyVal, ag.validate x = false) →
      ∀ r ∈ cvResults selfName others analysis,
        dictGet r "validated" = Option.some (PyVal.bool false)) := by
  constructor
  · intro v hv a
    simp only [sixVariantValidators, List.mem_cons, List.not_mem_nil,
      or_false] at hv
    rcases hv with rfl | rfl | rfl | rfl | rfl | rfl <;> rfl
  · intro selfName others analysis hval r hr
    simp only [cvResults, List.mem_map, List.mem_filter] at hr
    obtain ⟨ag, ⟨hmem, _⟩, rfl⟩ := hr
    simp [dictGet, List.find?, hval ag hmem analysis]

/-- Witness for C10: the theorem applied with the StrategyArchitect agent
as the single peer of a foreign analysis; the appended entry carries
validated = False. -/
theorem validators_always_false_witness :
    dictGet (PyVal.dict
        [("validator", PyVal.str "Dr. TAKT Strategy Architect"),
         ("validated", PyVal.bool false)]) "validated" =
      Option.some (PyVal.bool false) := by
  have h := validators_always_false.2 "X" [strategyArchitectAgent]
    PyVal.none (by
      intro ag hag x
      simp only [List.mem_cons, List.not_mem_nil, or_false] at hag
      subst hag
      rfl)
  exact h _ (by
    show _ ∈ [PyVal.dict
      [("validator", PyVal.str "Dr. TAKT Strategy Architect"),
       ("validated", PyVal.bool false)]]
    exact List.mem_singleton_self _)

theorem sum_indicator_eq_count (bs : List Bool) :
    (bs.map (fun b => if b then (1 : ℚ) else 0)).sum = (bs.count true : ℚ) := by
  induction bs with
  | nil => simp
  | cons b t ih =>
    cases b
    · simp [List.count_cons, ih]
    · simp [List.count_cons, ih]
      ring

theorem flagsOf_length (data : List DurationRecord) :
    (flagsOf data).length = data.length := by
  simp [flagsOf, ratiosOf]

theorem nanLt_iff (a b : Option ℚ) :
    nanLt a b = true ↔ ∃ x y : ℚ, a = Option.some x ∧ b = Option.some y ∧
      x < y := by
  cases a <;> cases b <;> simp [nanLt]

theorem pdStdSq_two_fin (a b : ℚ) :
    pdStdSq [Fl.fin a, Fl.fin b] = Option.some (sampleVarQ [a, b]) := by
  simp [pdStdSq, finValues, List.filter, List.filterMap]

theorem pdStdSq_single (x : Fl) (h : x ≠ Fl.nan) :
    pdStdSq [x] = Option.none := by
  simp [pdStdSq, List.filter, h]

theorem pdStdSq_pinf_fin (b : ℚ) :
    pdStdSq [Fl.pinf, Fl.fin b] = Option.none := by
  simp [pdStdSq, List.filter, List.any]

/-- C7 (amended).  For a non-empty record sequence the flow-efficiency
pair follows the claimed formulas, with the division guarded by
total > 0 rather than total = 0 alone; for the empty input the code
returns the pair (0, 0), so waste_percentage is not 100 minus
flow_efficiency there. -/
theorem flow_efficiency_formula :
    flowEfficiency [] = (0, 0) ∧
    ∀ data : List DurationRecord, data ≠ [] →
      (flowEfficiency data).1 =
        (if 0 < (data.map (fun r => r.actual_duration)).sum then
          ((data.filter (fun r => decide (r.variance ≤ 0))).map
            (fun r => r.actual_duration)).sum /
            (data.map (fun r => r.actual_duration)).sum * 100
         else 0) ∧
      (flowEfficiency data).2 = 100 - (flowEfficiency data).1 := by
  refine ⟨rfl, fun data h => ?_⟩
  obtain ⟨d, t, rfl⟩ := List.exists_cons_of_ne_nil h
  exact ⟨rfl, rfl⟩

/-- Witness for C7: the amended formulas evaluated on the two-record
scenario input. -/
theorem flow_efficiency_formula_witness :
    (flowEfficiency scenarioRecords).2 =
      100 - (flowEfficiency scenarioRecords).1 :=
  (flow_efficiency_formula.2 scenarioRecords (by simp [scenarioRecords])).2

/-- C7 counterexample.  On the empty input the code returns the pair
(0, 0), so waste_percentage is 0, not 100 - flow_efficiency = 100; the
claimed identity waste = 100 - flow_efficiency fails for the empty
sequence. -/
theorem flow_efficiency_empty_cex :
    flowEfficiency [] = (0, 0) ∧
    (flowEfficiency []).2 ≠ 100 - (flowEfficiency []).1 := by
  refine ⟨rfl, ?_⟩
  show (0 : ℚ) ≠ 100 - 0
  norm_num

/-- C8 (confirmed).  Flow efficiency is an order-invariant aggregate: any
permutation of the duration records yields the same flow_efficiency and
waste_percentage pair. -/
theorem flow_efficiency_perm_invariant (l1 l2 : List DurationRecord)
    (h : List.Perm l1 l2) : flowEfficiency l1 = flowEfficiency l2 := by
  have hr : flowEfficiencyRatio l1 = flowEfficiencyRatio l2 := by
    have ht : (l1.map (fun r => r.actual_duration)).sum =
        (l2.map (fun r => r.actual_duration)).sum :=
      List.Perm.sum_eq (List.Perm.map (fun r => r.actual_duration) h)
    have hv : ((l1.filter (fun r => decide (r.variance ≤ 0))).map
          (fun r => r.actual_duration)).sum =
        ((l2.filter (fun r => decide (r.variance ≤ 0))).map
          (fun r => r.actual_duration)).sum :=
      List.Perm.sum_eq (List.Perm.map (fun r => r.actual_duration)
        (List.Perm.filter (fun r => decide (r.variance ≤ 0)) h))
    unfold flowEfficiencyRatio
    rw [ht, hv]
  rcases l1 with _ | ⟨a, t1⟩
  · rw [(List.Perm.nil_eq h).symm]
  · rcases l2 with _ | ⟨b, t2⟩
    · exact absurd (List.Perm.eq_nil h) (by simp)
    · show (flowEfficiencyRatio (a :: t1),
          100 - flowEfficiencyRatio (a :: t1)) =
        (flowEfficiencyRatio (b :: t2), 100 - flowEfficiencyRatio (b :: t2))
      rw [hr]

/-- Witness for C8: the invariance applied to the scenario records and
their reversal. -/
theorem flow_efficiency_perm_invariant_witness :
    flowEfficiency scenarioRecords = flowEfficiency scenarioRecords.reverse :=
  flow_efficiency_perm_invariant scenarioRecords scenarioRecords.reverse
    (List.Perm.symm (List.reverse_perm scenarioRecords))

/-- C4 (confirmed).  On the empty input both adherence fields are 0; on a
non-empty input average_adherence is the percentage of records whose
ratio actual/planned is at most 1.1 (an IEEE comparison on the float
ratio), and stability_index is 100 - 100 * stddev of the ratio series,
where stddev is the pandas sample standard deviation: the square root of
the sample variance when it is defined, NaN otherwise; on the concrete
scenario records (20, 22) and (30, 40) the flags are [true, false] and
average_adherence is 50. -/
theorem takt_adherence_spec :
    taktAdherence [] = (Fl.fin 0, StabVal.num (Fl.fin 0)) ∧
    (∀ data : List DurationRecord, data ≠ [] →
      (taktAdherence data).1 =
        Fl.fin (100 * ((flagsOf data).count true : ℚ) / data.length)) ∧
    (∀ data : List DurationRecord, data ≠ [] → ∀ v : ℚ,
      pdStdSq (ratiosOf data) = Option.some v →
      StabVal.denote (taktAdherence data).2 =
        Option.some ((100 : ℝ) - 100 * Real.sqrt ((v : ℝ)))) ∧
    (∀ data : List DurationRecord, data ≠ [] →
      pdStdSq (ratiosOf data) = Option.none →
      (taktAdherence data).2 = StabVal.num Fl.nan) ∧
    flagsOf scenarioRecords = [true, false] ∧
    (taktAdherence scenarioRecords).1 = Fl.fin 50 := by
  refine ⟨rfl, ?_, ?_, ?_, ?_, ?_⟩
  · intro data h
    obtain ⟨d, t, rfl⟩ := List.exists_cons_of_ne_nil h
    have key : boolSeriesMean (flagsOf (d :: t)) * 100 =
        100 * ((flagsOf (d :: t)).count true : ℚ) / (d :: t).length := by
      rw [boolSeriesMean, sum_indicator_eq_count, flagsOf_length]
      ring
    show Fl.fin (boolSeriesMean (flagsOf (d :: t)) * 100) =
      Fl.fin (100 * ((flagsOf (d :: t)).count true : ℚ) / (d :: t).length)
    rw [key]
  · intro data h v hv
    obtain ⟨d, t, rfl⟩ := List.exists_cons_of_ne_nil h
    have h2 : (taktAdherence (d :: t)).2 =
        StabVal.hundredSubHundredSqrt v := by
      show (match pdStdSq (ratiosOf (d :: t)) with
        | Option.none => StabVal.num Fl.nan
        | Option.some w => StabVal.hundredSubHundredSqrt w) =
        StabVal.hundredSubHundredSqrt v
      rw [hv]
    rw [h2]
    rfl
  · intro data h hn
    obtain ⟨d, t, rfl⟩ := List.exists_cons_of_ne_nil h
    show (match pdStdSq (ratiosOf (d :: t)) with
      | Option.none => StabVal.num Fl.nan
      | Option.some w => StabVal.hundredSubHundredSqrt w) =
      StabVal.num Fl.nan
    rw [hn]
  · norm_num [flagsOf, ratiosOf, fdiv, fleQ, scenarioRecords]
  · show Fl.fin (boolSeriesMean (flagsOf scenarioRecords) * 100) = Fl.fin 50
    norm_num [scenarioRecords, flagsOf, ratiosOf, fdiv, fleQ, boolSeriesMean]

/-- Witness for C4: the percentage formula, the stddev identity and the
NaN case at concrete inputs.  The sample variance of the scenario ratios
11/10 and 4/3 is 49/1800; a single zero-planned record makes the std NaN
(fewer than two usable values with ddof = 1). -/
theorem takt_adherence_spec_witness :
    (taktAdherence scenarioRecords).1 =
      Fl.fin (100 * ((flagsOf scenarioRecords).count true : ℚ) /
        scenarioRecords.length) ∧
    StabVal.denote (taktAdherence scenarioRecords).2 =
      Option.some ((100 : ℝ) -
        100 * Real.sqrt (((49 / 1800 : ℚ) : ℝ))) ∧
    (taktAdherence [zeroPlannedRecord]).2 = StabVal.num Fl.nan := by
  refine ⟨takt_adherence_spec.2.1 scenarioRecords (by simp [scenarioRecords]),
    takt_adherence_spec.2.2.1 scenarioRecords (by simp [scenarioRecords])
      (49 / 1800) ?_,
    takt_adherence_spec.2.2.2.1 [zeroPlannedRecord] (by simp) ?_⟩
  · have hrat : ratiosOf scenarioRecords =
        [Fl.fin (22 / 20), Fl.fin (40 / 30)] := by
      norm_num [ratiosOf, scenarioRecords, fdiv]
    rw [hrat, pdStdSq_two_fin]
    norm_num [sampleVarQ]
  · have hrat : ratiosOf [zeroPlannedRecord] = [Fl.pinf] := by
      norm_num [ratiosOf, zeroPlannedRecord, fdiv]
    rw [hrat]
    exact pdStdSq_single Fl.pinf (by simp)

/-- C9 (amended).  The adherence computation does not special-case
planned_duration = 0: the ratio of such a record (with positive actual
duration) is positive infinity, no exception is raised,
average_adherence is still a finite percentage (the infinite ratio just
fails the <= 1.1 flag), but stability_index is the non-finite value NaN,
because the sample standard deviation of a series containing an infinity
is NaN. -/
theorem adherence_zero_planned_nan_stability
    (data : List DurationRecord)
    (h : ∃ r ∈ data, r.planned_duration = 0 ∧ 0 < r.actual_duration) :
    (∃ q : ℚ, (taktAdherence data).1 = Fl.fin q) ∧
    (taktAdherence data).2 = StabVal.num Fl.nan := by
  obtain ⟨r, hr, hp, ha⟩ := h
  have hne : data ≠ [] := by
    rintro rfl
    exact (List.not_mem_nil r) hr
  have hinf : Fl.pinf ∈ ratiosOf data := by
    simp only [ratiosOf, List.mem_map]
    refine ⟨r, hr, ?_⟩
    rw [hp]
    simp [fdiv, ha]
  have hyinf : Fl.pinf ∈ (ratiosOf data).filter (fun x => x ≠ Fl.nan) :=
    List.mem_filter.mpr ⟨hinf, by simp⟩
  have hany : ((ratiosOf data).filter (fun x => x ≠ Fl.nan)).any
      (fun x => x == Fl.pinf || x == Fl.ninf) = true :=
    List.any_eq_true.mpr ⟨Fl.pinf, hyinf, by simp⟩
  have hstd : pdStdSq (ratiosOf data) = Option.none := by
    by_cases hlen : ((ratiosOf data).filter
        (fun x => x ≠ Fl.nan)).length ≤ 1
    · unfold pdStdSq
      rw [if_pos hlen]
    · unfold pdStdSq
      rw [if_neg hlen, if_pos hany]
  obtain ⟨d, t, rfl⟩ := List.exists_cons_of_ne_nil hne
  constructor
  · exact ⟨boolSeriesMean (flagsOf (d :: t)) * 100, rfl⟩
  · show (match pdStdSq (ratiosOf (d :: t)) with
      | Option.none => StabVal.num Fl.nan
      | Option.some w => StabVal.hundredSubHundredSqrt w) =
      StabVal.num Fl.nan
    rw [hstd]

/-- Witness for C9 (amended): the single zero-planned record; the
adherence stays finite while the stability index is NaN. -/
theorem adherence_zero_planned_nan_stability_witness :
    (∃ q : ℚ, (taktAdherence [zeroPlannedRecord]).1 = Fl.fin q) ∧
    (taktAdherence [zeroPlannedRecord]).2 = StabVal.num Fl.nan :=
  adherence_zero_planned_nan_stability [zeroPlannedRecord]
    ⟨zeroPlannedRecord, by simp, by norm_num [zeroPlannedRecord]⟩

/-- C9 counterexample.  On the concrete input holding a record with
planned_duration = 0 next to a well-behaved record, the computation
returns a well-defined average of 50 but a NaN stability index: the
engine does not special-case the undefined ratio and produces a
non-finite result rather than a defined sentinel. -/
theorem adherence_zero_planned_cex :
    (taktAdherence zeroPlannedScenario).1 = Fl.fin 50 ∧
    (taktAdherence zeroPlannedScenario).2 = StabVal.num Fl.nan := by
  constructor
  · show Fl.fin (boolSeriesMean (flagsOf zeroPlannedScenario) * 100) =
      Fl.fin 50
    norm_num [zeroPlannedScenario, zeroPlannedRecord, flagsOf, ratiosOf,
      fdiv, fleQ, boolSeriesMean]
  · show (match pdStdSq (ratiosOf zeroPlannedScenario) with
      | Option.none => StabVal.num Fl.nan
      | Option.some w => StabVal.hundredSubHundredSqrt w) =
      StabVal.num Fl.nan
    have hrat : ratiosOf zeroPlannedScenario =
        [Fl.pinf, Fl.fin (22 / 20)] := by
      norm_num [ratiosOf, zeroPlannedScenario, zeroPlannedRecord, fdiv]
    rw [hrat, pdStdSq_pinf_fin]

theorem trendOf_eq_improving_iff (s : List (Option ℚ)) :
    trendOf s = "Improving" ↔
      nanLt (s.getLast?.getD Option.none)
        (s.head?.getD Option.none) = true := by
  unfold trendOf
  cases h : nanLt (s.getLast?.getD Option.none)
      (s.head?.getD Option.none) with
  | true => simp
  | false => simp

/-- C3 (confirmed).  On the empty input the trend pair is
(No data, null); on a non-empty input the pattern is the 5-period
trailing moving average of the variance column, the trend is Improving
exactly when the last moving-average entry and the first moving-average
entry are both defined (non-NaN) and the last is strictly smaller, and
Degrading otherwise.  With the pandas window of 5 the first entry of the
series is NaN for every non-empty input, so the comparison follows IEEE
NaN semantics. -/
theorem variance_trends_spec :
    analyzeVarianceTrends [] = ("No data", Option.none) ∧
    ∀ data : List DurationRecord, data ≠ [] →
      (analyzeVarianceTrends data).2 =
        Option.some (rollingMean5 (data.map (fun r => r.variance))) ∧
      (((analyzeVarianceTrends data).1 = "Improving") ↔
        (∃ x y : ℚ,
          (rollingMean5 (data.map (fun r => r.variance))).getLast?.getD
            Option.none = Option.some x ∧
          (rollingMean5 (data.map (fun r => r.variance))).head?.getD
            Option.none = Option.some y ∧
          x < y)) ∧
      (¬ (∃ x y : ℚ,
          (rollingMean5 (data.map (fun r => r.variance))).getLast?.getD
            Option.none = Option.some x ∧
          (rollingMean5 (data.map (fun r => r.variance))).head?.getD
            Option.none = Option.some y ∧
          x < y) →
        (analyzeVarianceTrends data).1 = "Degrading") := by
  refine ⟨rfl, fun data h => ?_⟩
  obtain ⟨d, t, rfl⟩ := List.exists_cons_of_ne_nil h
  refine ⟨rfl, ?_, ?_⟩
  · show trendOf (rollingMean5 ((d :: t).map (fun r => r.variance))) =
      "Improving" ↔ _
    rw [trendOf_eq_improving_iff, nanLt_iff]
  · intro hc
    have hfalse : nanLt ((rollingMean5 ((d :: t).map
        (fun r => r.variance))).getLast?.getD Option.none)
        ((rollingMean5 ((d :: t).map (fun r => r.variance))).head?.getD
          Option.none) = false := by
      cases hny : nanLt ((rollingMean5 ((d :: t).map
          (fun r => r.variance))).getLast?.getD Option.none)
          ((rollingMean5 ((d :: t).map (fun r => r.variance))).head?.getD
            Option.none) with
      | true => exact absurd ((nanLt_iff _ _).mp hny) hc
      | false => rfl
    show trendOf (rollingMean5 ((d :: t).map (fun r => r.variance))) =
      "Degrading"
    unfold trendOf
    rw [hfalse]
    simp

/-- Witness for C3: on a single record the rolling window of 5 is never
filled, the moving-average series is a single NaN entry, the comparison
is false, and the trend is Degrading with the series as pattern. -/
theorem variance_trends_spec_witness :
    (analyzeVarianceTrends [singleRecord]).2 =
      Option.some (rollingMean5 ([singleRecord].map
        (fun r => r.variance))) ∧
    (analyzeVarianceTrends [singleRecord]).1 = "Degrading" := by
  have h := variance_trends_spec.2 [singleRecord] (by simp)
  refine ⟨h.1, h.2.2 ?_⟩
  rintro ⟨x, y, hx, -, -⟩
  have he : (rollingMean5 ([singleRecord].map
      (fun r => r.variance))).getLast?.getD Option.none =
      (Option.none : Option ℚ) := rfl
  rw [he] at hx
  exact Option.noConfusion hx

theorem alloc_length (h : Heap) (o : HObj) :
    (h.alloc o).1.objs.length = h.objs.length + 1 := by
  simp [Heap.alloc]

theorem lookup_alloc_lt (h : Heap) (o : HObj) (a : Nat)
    (ha : a < h.objs.length) : (h.alloc o).1.lookup a = h.lookup a := by
  simp only [Heap.alloc, Heap.lookup]
  exact List.getElem?_append_left ha

theorem lookup_alloc_self (h : Heap) (o : HObj) :
    (h.alloc o).1.lookup (h.alloc o).2 = Option.some o := by
  simp only [Heap.alloc, Heap.lookup]
  exact List.getElem?_concat_length h.objs o

theorem lookup_lt_of_some (h : Heap) (a : Nat) (o : HObj)
    (hl : h.lookup a = Option.some o) : a < h.objs.length := by
  by_contra hge
  rw [Heap.lookup, List.getElem?_eq_none_iff.mpr (Nat.le_of_not_lt hge)]
    at hl
  exact Option.noConfusion hl

theorem write_length (h : Heap) (a : Nat) (o : HObj) :
    (h.write a o).objs.length = h.objs.length := by
  simp [Heap.write]

theorem lookup_write_ne (h : Heap) (a : Nat) (o : HObj) (b : Nat)
    (hne : b ≠ a) : (h.write a o).lookup b = h.lookup b := by
  simp only [Heap.write, Heap.lookup]
  exact List.getElem?_set_ne (Ne.symm hne)

theorem lookup_write_self (h : Heap) (a : Nat) (o : HObj)
    (ha : a < h.objs.length) : (h.write a o).lookup a = Option.some o := by
  simp only [Heap.write, Heap.lookup]
  exact List.getElem?_set_self ha

theorem appendItem_length (h : Heap) (a : Nat) (v : HVal) :
    (h.appendItem a v).objs.length = h.objs.length := by
  unfold Heap.appendItem
  cases hl : h.lookup a with
  | none => rfl
  | some o =>
    cases o with
    | dict es => rfl
    | list xs => exact write_length h a _

theorem lookup_appendItem_ne (h : Heap) (a : Nat) (v : HVal) (b : Nat)
    (hne : b ≠ a) : (h.appendItem a v).lookup b = h.lookup b := by
  unfold Heap.appendItem
  cases hl : h.lookup a with
  | none => rfl
  | some o =>
    cases o with
    | dict es => rfl
    | list xs => exact lookup_write_ne h a _ b hne

theorem lookup_appendItem_list (h : Heap) (a : Nat) (v : HVal)
    (xs : List HVal) (hl : h.lookup a = Option.some (HObj.list xs)) :
    (h.appendItem a v).lookup a = Option.some (HObj.list (xs ++ [v])) := by
  unfold Heap.appendItem
  rw [hl]
  exact lookup_write_self h a _ (lookup_lt_of_some h a _ hl)

theorem cvStep_length (aRef lRef : Nat) (ag : HAgent) (h : Heap) :
    (cvStep aRef lRef ag h).objs.length = h.objs.length + 1 := by
  unfold cvStep
  rw [appendItem_length, alloc_length]

theorem cvStep_lookup_ne (aRef lRef : Nat) (ag : HAgent) (h : Heap)
    (b : Nat) (hne : b ≠ lRef) (hb : b < h.objs.length) :
    (cvStep aRef lRef ag h).lookup b = h.lookup b := by
  unfold cvStep
  rw [lookup_appendItem_ne _ _ _ _ hne, lookup_alloc_lt _ _ _ hb]

theorem cvStep_lookup_list (aRef lRef : Nat) (ag : HAgent) (h : Heap)
    (xs : List HVal) (hl : h.lookup lRef = Option.some (HObj.list xs)) :
    (cvStep aRef lRef ag h).lookup lRef =
      Option.some (HObj.list (xs ++ [HVal.ref h.objs.length])) := by
  unfold cvStep
  have h1 : (h.alloc (HObj.dict
      [("validator", HVal.str ag.name),
       ("validated", HVal.bool (ag.validate h aRef))])).1.lookup lRef =
      Option.some (HObj.list xs) := by
    rw [lookup_alloc_lt _ _ _ (lookup_lt_of_some h lRef _ hl)]
    exact hl
  exact lookup_appendItem_list _ _ _ xs h1

theorem cvLoop_lookup_ne (selfName : String) (aRef lRef : Nat)
    (others : List HAgent) :
    ∀ (h : Heap) (b : Nat), b < h.objs.length → b ≠ lRef →
      (cvLoop selfName aRef lRef others h).lookup b = h.lookup b := by
  induction others with
  | nil =>
    intro h b _ _
    simp [cvLoop]
  | cons ag rest ih =>
    intro h b hb hne
    by_cases hn : (ag.name != selfName) = true
    · have e : cvLoop selfName aRef lRef (ag :: rest) h =
          cvLoop selfName aRef lRef rest (cvStep aRef lRef ag h) := by
        simp only [cvLoop]
        rw [if_pos hn]
      rw [e, ih _ b (by rw [cvStep_length]; omega) hne]
      exact cvStep_lookup_ne aRef lRef ag h b hne hb
    · have e : cvLoop selfName aRef lRef (ag :: rest) h =
          cvLoop selfName aRef lRef rest h := by
        simp only [cvLoop]
        rw [if_neg hn]
      rw [e]
      exact ih h b hb hne

theorem cvLoop_lookup_list (selfName : String) (aRef lRef : Nat)
    (others : List HAgent) :
    ∀ (h : Heap) (xs : List HVal),
      h.lookup lRef = Option.some (HObj.list xs) →
      ∃ ys : List HVal,
        (cvLoop selfName aRef lRef others h).lookup lRef =
          Option.some (HObj.list (xs ++ ys)) ∧
        ys.length =
          (others.filter (fun ag => ag.name != selfName)).length := by
  induction others with
  | nil =>
    intro h xs hl
    refine ⟨[], ?_, by simp⟩
    simpa [cvLoop] using hl
  | cons ag rest ih =>
    intro h xs hl
    by_cases hn : (ag.name != selfName) = true
    · have e : cvLoop selfName aRef lRef (ag :: rest) h =
          cvLoop selfName aRef lRef rest (cvStep aRef lRef ag h) := by
        simp only [cvLoop]
        rw [if_pos hn]
      have hstep : (cvStep aRef lRef ag h).lookup lRef =
          Option.some (HObj.list (xs ++ [HVal.ref h.objs.length])) :=
        cvStep_lookup_list aRef lRef ag h xs hl
      obtain ⟨ys, hy, hylen⟩ := ih _ _ hstep
      refine ⟨HVal.ref h.objs.length :: ys, ?_, ?_⟩
      · rw [e, hy]
        simp
      · simp [List.filter_cons, hn, hylen]
    · have e : cvLoop selfName aRef lRef (ag :: rest) h =
          cvLoop selfName aRef lRef rest h := by
        simp only [cvLoop]
        rw [if_neg hn]
      obtain ⟨ys, hy, hylen⟩ := ih h xs hl
      have hn' : (ag.name != selfName) = false := by
        revert hn
        cases (ag.name != selfName) <;> simp
      refine ⟨ys, by rw [e, hy], ?_⟩
      simp [List.filter_cons, hn', hylen]

/-- C6 (confirmed).  At the heap level, cross_validate never mutates any
pre-existing object: every address allocated before the call (and in
particular the input analysis dictionary and everything it references)
still holds its original content afterwards.  The returned reference is
fresh and holds a new dictionary equal to the input analysis entries plus
the cross_validation_results key, which points to a freshly allocated
result list holding exactly one entry per peer whose name differs from
the analyzing agent. -/
theorem cross_validate_no_mutation
    (h : Heap) (selfName : String) (others : List HAgent) (aRef : Nat)
    (es : List (String × HVal))
    (ha : h.lookup aRef = Option.some (HObj.dict es)) :
    (∀ b : Nat, b < h.objs.length →
      ((crossValidateHeap selfName others aRef h).1).lookup b =
        h.lookup b) ∧
    (crossValidateHeap selfName others aRef h).2 = h.objs.length ∧
    ((crossValidateHeap selfName others aRef h).1).lookup
        h.objs.length =
      Option.some (HObj.dict (hDictSetEntries es
        "cross_validation_results" (HVal.ref (h.objs.length + 1)))) ∧
    (∃ ys : List HVal,
      ((crossValidateHeap selfName others aRef h).1).lookup
          (h.objs.length + 1) = Option.some (HObj.list ys) ∧
      ys.length =
        (others.filter (fun ag => ag.name != selfName)).length) := by
  have hde : h.dictEntries aRef = es := by
    rw [Heap.dictEntries, ha]
  have hB2 : ((h.alloc (HObj.dict es)).1.alloc (HObj.list [])).2 =
      h.objs.length + 1 := by
    show (h.alloc (HObj.dict es)).1.objs.length = h.objs.length + 1
    exact alloc_length h (HObj.dict es)
  have hA2 : (h.alloc (HObj.dict es)).2 = h.objs.length := rfl
  have hcv : crossValidateHeap selfName others aRef h =
      (cvLoop selfName aRef (h.objs.length + 1) others
        ((((h.alloc (HObj.dict es)).1.alloc (HObj.list [])).1).setKey
          h.objs.length "cross_validation_results"
          (HVal.ref (h.objs.length + 1))),
       h.objs.length) := by
    simp only [crossValidateHeap, hde]
    rw [hB2, hA2]
  rw [hcv]
  dsimp only
  have hAn : (h.alloc (HObj.dict es)).1.lookup h.objs.length =
      Option.some (HObj.dict es) := lookup_alloc_self h (HObj.dict es)
  have hH2n : ((h.alloc (HObj.dict es)).1.alloc
      (HObj.list [])).1.lookup h.objs.length =
      Option.some (HObj.dict es) := by
    rw [lookup_alloc_lt _ _ _ (by rw [alloc_length]; omega)]
    exact hAn
  have hH2l : ((h.alloc (HObj.dict es)).1.alloc
      (HObj.list [])).1.lookup (h.objs.length + 1) =
      Option.some (HObj.list []) := by
    have hself := lookup_alloc_self (h.alloc (HObj.dict es)).1
      (HObj.list [])
    rwa [hB2] at hself
  have hH2len : ((h.alloc (HObj.dict es)).1.alloc
      (HObj.list [])).1.objs.length = h.objs.length + 2 := by
    rw [alloc_length, alloc_length]
  have hsetK : (((h.alloc (HObj.dict es)).1.alloc (HObj.list [])).1).setKey
      h.objs.length "cross_validation_results"
      (HVal.ref (h.objs.length + 1)) =
      (((h.alloc (HObj.dict es)).1.alloc (HObj.list [])).1).write
        h.objs.length (HObj.dict (hDictSetEntries es
          "cross_validation_results" (HVal.ref (h.objs.length + 1)))) := by
    unfold Heap.setKey Heap.dictEntries
    rw [hH2n]
  have hH3len : ((((h.alloc (HObj.dict es)).1.alloc
      (HObj.list [])).1).setKey h.objs.length "cross_validation_results"
      (HVal.ref (h.objs.length + 1))).objs.length =
      h.objs.length + 2 := by
    rw [hsetK, write_length, hH2len]
  have hH3n : ((((h.alloc (HObj.dict es)).1.alloc
      (HObj.list [])).1).setKey h.objs.length "cross_validation_results"
      (HVal.ref (h.objs.length + 1))).lookup h.objs.length =
      Option.some (HObj.dict (hDictSetEntries es
        "cross_validation_results" (HVal.ref (h.objs.length + 1)))) := by
    rw [hsetK]
    exact lookup_write_self _ _ _ (by rw [hH2len]; omega)
  have hH3l : ((((h.alloc (HObj.dict es)).1.alloc
      (HObj.list [])).1).setKey h.objs.length "cross_validation_results"
      (HVal.ref (h.objs.length + 1))).lookup (h.objs.length + 1) =
      Option.some (HObj.list []) := by
    rw [hsetK, lookup_write_ne _ _ _ _ (by omega)]
    exact hH2l
  have hH3b : ∀ b : Nat, b < h.objs.length →
      ((((h.alloc (HObj.dict es)).1.alloc (HObj.list [])).1).setKey
        h.objs.length "cross_validation_results"
        (HVal.ref (h.objs.length + 1))).lookup b = h.lookup b := by
    intro b hb
    rw [hsetK, lookup_write_ne _ _ _ _ (by omega),
      lookup_alloc_lt _ _ _ (by rw [alloc_length]; omega),
      lookup_alloc_lt _ _ _ hb]
  refine ⟨?_, rfl, ?_, ?_⟩
  · intro b hb
    rw [cvLoop_lookup_ne selfName aRef (h.objs.length + 1) others _ b
      (by rw [hH3len]; omega) (by omega)]
    exact hH3b b hb
  · rw [cvLoop_lookup_ne selfName aRef (h.objs.length + 1) others _
      h.objs.length (by rw [hH3len]; omega) (by omega)]
    exact hH3n
  · obtain ⟨ys, hy, hylen⟩ := cvLoop_lookup_list selfName aRef
      (h.objs.length + 1) others _ [] hH3l
    rw [List.nil_append] at hy
    exact ⟨ys, hy, hylen⟩

/-- Witness for C6: a concrete heap holding a one-entry analysis
dictionary at address 0 and a single constantly-false peer; after the
call the original dictionary is unchanged, the returned reference is the
fresh address 1, and the result list at address 2 holds one entry. -/
theorem cross_validate_no_mutation_witness :
    ((crossValidateHeap "A" demoPeers 0 demoHeap).1).lookup 0 =
      demoHeap.lookup 0 ∧
    (crossValidateHeap "A" demoPeers 0 demoHeap).2 = 1 ∧
    (∃ ys : List HVal,
      ((crossValidateHeap "A" demoPeers 0 demoHeap).1).lookup 2 =
        Option.some (HObj.list ys) ∧
      ys.length = 1) := by
  have h := cross_validate_no_mutation demoHeap "A" demoPeers 0
    [("agent_name", HVal.str "A")] rfl
  refine ⟨h.1 0 (by decide), h.2.1, ?_⟩
  obtain ⟨ys, hy, hylen⟩ := h.2.2.2
  exact ⟨ys, hy, by rw [hylen]; decide⟩
